import Mathlib

/-!
Verification of the API gateway of the social-media-microservices repository.

The gateway (src/api-gateway/src/server.js together with
src/api-gateway/src/middlewares/authMiddleware.js) authenticates inbound HTTP
requests with bearer tokens, rate-limits them with a fixed window backed by a
shared Redis store, and forwards them to the identity, post and media backends,
rewriting `/v1/...` paths to `/api/...` paths and injecting an `x-user-id`
header.

Strings from the JavaScript source are embedded as `List Char` so that the
prefix/split/trim operations the code performs can be reasoned about by
structural induction.  Node.js lowercases all incoming HTTP header names, so
request-header maps carry that invariant as an explicit hypothesis where it
matters.
-/

set_option autoImplicit false

namespace Gateway

/-- A JavaScript string, embedded as its list of characters. -/
abbrev Str := List Char

/-- Embed a Lean string literal as a `Str`. -/
def str (s : String) : Str := s.data

/-- JavaScript `s.split(c)` for a single-character separator: splits on every
occurrence of `c`, keeping empty pieces, so the result is always nonempty. -/
def splitOnChar (c : Char) : Str → List Str
  | [] => [[]]
  | x :: xs =>
    match splitOnChar c xs with
    | [] => [[x]]
    | r :: rs => if x = c then [] :: r :: rs else (x :: r) :: rs

/-- JavaScript `s.trim()`: strip whitespace from both ends. -/
def jsTrim (s : Str) : Str :=
  ((s.dropWhile Char.isWhitespace).reverse.dropWhile Char.isWhitespace).reverse

/-- Header maps as association lists; JavaScript property access
`obj[key]` is exact-match lookup. -/
def hget (hs : List (Str × Str)) (k : Str) : Option Str :=
  (hs.find? (fun p => p.1 = k)).map Prod.snd

/-- JavaScript property assignment `obj[key] = v`. -/
def hset (hs : List (Str × Str)) (k : Str) (v : Str) : List (Str × Str) :=
  (k, v) :: hs.filter (fun p => ¬ p.1 = k)

/-- JavaScript `a || b` over possibly-absent strings: an empty string is falsy,
so it also falls through to `b`. -/
def jsOr (a b : Option Str) : Option Str :=
  match a with
  | some v => if v = [] then b else some v
  | none => b

/-- The decoded JWT payload; the gateway reads `decoded.userId` when it
injects the `x-user-id` header. -/
structure Claims where
  userId : Str
  deriving DecidableEq, Repr

/-- The error kinds the middleware distinguishes on `err.name` from
`jsonwebtoken`'s `verify` callback. -/
inductive JwtError where
  | tokenExpiredError
  | jsonWebTokenError
  | otherError
  deriving DecidableEq, Repr

/-- Result of `jwt.verify(token, secret, cb)` as observed by the callback. -/
inductive JwtResult where
  | err (e : JwtError)
  | ok (decoded : Claims)
  deriving DecidableEq, Repr

/-- An inbound request as the middleware sees it: its (Node-lowercased)
header map. -/
structure GwRequest where
  headers : List (Str × Str)
  deriving DecidableEq, Repr

/-- What one execution of the middleware does to the request: either write a
single error response (status, `success` flag, message) or attach the decoded
payload as `req.user` and call `next()`. -/
inductive MwOutcome where
  | respond (status : Nat) (success : Bool) (message : Str)
  | proceed (user : Claims)
  deriving DecidableEq, Repr

/-- The middleware's `authHeader` expression:
`req.headers["authorization"] || req.headers["Authorization"]`. -/
def authHeaderOf (req : GwRequest) : Option Str :=
  jsOr (hget req.headers (str "authorization"))
    (hget req.headers (str "Authorization"))

/-- The tail of `validateToken` once a nonempty token has been extracted: the
`JWT_SECRET` presence check, then `jwt.verify` with the callback dispatching
on `err.name`; on success the decoded payload becomes `req.user` and `next()`
is called. -/
def verifyPhase (secret : Option Str) (verify : Str → JwtResult) (t : Str) :
    MwOutcome :=
  if secret = none then
    .respond 500 false (str "Server configuration error")
  else
    match verify t with
    | .err .tokenExpiredError =>
      .respond 401 false (str "Token expired - Please login again")
    | .err .jsonWebTokenError =>
      .respond 403 false (str "Invalid token - Authentication failed")
    | .err .otherError =>
      .respond 403 false (str "Token verification failed")
    | .ok decoded => .proceed decoded

/-- The `validateToken` middleware of
src/api-gateway/src/middlewares/authMiddleware.js.  `secret` is
`process.env.JWT_SECRET`; `verify` is the `jsonwebtoken` verification oracle
applied to the extracted token string.  Mirrors the source order: header
presence (`!authHeader` is also true for an empty string), the
`Bearer `/`bearer ` prefix check, token extraction via `split(" ")[1]`,
the `!token || token.trim() === ""` emptiness check, then `verifyPhase`. -/
def validateToken (secret : Option Str) (verify : Str → JwtResult)
    (req : GwRequest) : MwOutcome :=
  match authHeaderOf req with
  | none =>
    .respond 401 false (str "Authentication required - No token provided")
  | some h =>
    if h = [] then
      .respond 401 false (str "Authentication required - No token provided")
    else if ¬ (List.isPrefixOf (str "Bearer ") h)
        ∧ ¬ (List.isPrefixOf (str "bearer ") h) then
      .respond 401 false
        (str "Authentication required - Invalid format. Use: Bearer <token>")
    else
      match (splitOnChar ' ' h).get? 1 with
      | none => .respond 401 false (str "Authentication required - Empty token")
      | some t =>
        if t = [] ∨ jsTrim t = [] then
          .respond 401 false (str "Authentication required - Empty token")
        else
          verifyPhase secret verify t

/-- A gateway-generated HTTP response.  Different responses populate
different fields of the JSON envelope, so all envelope fields are optional. -/
structure GwResponse where
  status : Nat
  success : Option Bool := none
  message : Option Str := none
  error : Option Str := none
  path : Option Str := none
  method : Option Str := none
  body : Option Str := none
  deriving DecidableEq, Repr

/-- Result of one forwarding attempt to a downstream service: either the
downstream's response is relayed, or the transport failed with an error whose
`message` the proxy error handler receives. -/
inductive ProxyOutcome where
  | relayed (status : Nat) (body : Str)
  | failed (errMessage : Str)
  deriving DecidableEq, Repr

/-- The `proxyErrorHandler` of src/api-gateway/src/server.js: logs and then
responds `500 {success:false, message:"Internal Server Error", error: err.message}`. -/
def proxyErrorHandler (errMessage : Str) : GwResponse :=
  { status := 500, success := some false,
    message := some (str "Internal Server Error"), error := some errMessage }

/-- Render a forwarding attempt to the caller: a relayed downstream response is
passed through with its status and body; a transport failure goes to
`proxyErrorHandler`. -/
def renderProxyOutcome : ProxyOutcome → GwResponse
  | .relayed s b => { status := s, body := some b }
  | .failed e => proxyErrorHandler e

/-- The gateway's mounted routes, in registration order, with whether the mount
places `validateToken` in front of the proxy (src/api-gateway/src/server.js:
`/v1/auth` unauthenticated, `/v1/posts` and `/v1/media` authenticated). -/
def gatewayRoutes : List (Str × Bool) :=
  [(str "/v1/auth", false), (str "/v1/posts", true), (str "/v1/media", true)]

/-- Express mount resolution: the first registered mount whose path is a prefix
of the request path handles the request. -/
def matchRoute (path : Str) : Option (Str × Bool) :=
  gatewayRoutes.find? (fun r => List.isPrefixOf r.1 path)

/-- Modelled from the spec: the gateway's terminal `errHandler` middleware
(required from src/api-gateway/src/middlewares/errorHandler.js, a file absent
from the repository snapshot).  Per the spec, an unmatched path produces a 404
JSON envelope `{success:false, message, path, method}` echoing the original
path and method, never a 500. -/
def errHandler (path method : Str) : GwResponse :=
  { status := 404, success := some false, message := some (str "Not Found"),
    path := some path, method := some method }

/-- The per-request pipeline of src/api-gateway/src/server.js after rate
limiting: resolve the mount, run `validateToken` when the route requires it,
then render the forwarding attempt; unmatched paths fall through to the
terminal handler. -/
def gatewayDispatch (secret : Option Str) (verify : Str → JwtResult)
    (req : GwRequest) (path method : Str) (downstream : ProxyOutcome) :
    GwResponse :=
  match matchRoute path with
  | none => errHandler path method
  | some r =>
    if r.2 then
      match validateToken secret verify req with
      | .respond s ok m => { status := s, success := some ok, message := some m }
      | .proceed _ => renderProxyOutcome downstream
    else renderProxyOutcome downstream

/-- The window of the gateway rate limiter, in milliseconds
(src/api-gateway/src/server.js: `windowMs: 15 * 60 * 1000`). -/
def gatewayWindowMs : Nat := 15 * 60 * 1000

/-- The request budget per window of the gateway rate limiter
(src/api-gateway/src/server.js: `max: 100`). -/
def gatewayMax : Nat := 100

/-- The gateway rate limiter's rejection handler
(src/api-gateway/src/server.js): `429 {success:false, message:"Too Many Requests"}`. -/
def rateLimitHandler : GwResponse :=
  { status := 429, success := some false,
    message := some (str "Too Many Requests") }

/-- The shared store's counters for the current window, keyed by client IP. -/
abbrev LimiterState := List (Str × Nat)

/-- Current count for a key; absent keys count as zero. -/
def getCount (st : LimiterState) (k : Str) : Nat :=
  ((st.find? (fun p => p.1 = k)).map Prod.snd).getD 0

/-- Store an updated count for a key. -/
def setCount (st : LimiterState) (k : Str) (v : Nat) : LimiterState :=
  (k, v) :: st.filter (fun p => ¬ p.1 = k)

/-- Modelled from the spec: the fixed-window admission step of the
`express-rate-limit` library configured in src/api-gateway/src/server.js.  The
store's counter for the client key is atomically incremented; the request is
admitted iff the new count does not exceed the configured budget. -/
def admitReq (st : LimiterState) (k : Str) : Bool × LimiterState :=
  let c := getCount st k + 1
  (decide (c ≤ gatewayMax), setCount st k c)

/-- One rate-limited request: if admitted, the request succeeds or fails on its
own merits (`appResult`); if rejected, the configured handler responds 429. -/
def processRequest (st : LimiterState) (k : Str) (appResult : GwResponse) :
    GwResponse × LimiterState :=
  let a := admitReq st k
  (if a.1 then appResult else rateLimitHandler, a.2)

/-- Run a sequence of requests from one client key through the limiter within
a single window, threading the shared store. -/
def runRequests (k : Str) : LimiterState → List GwResponse → List GwResponse
  | _, [] => []
  | st, r :: rs =>
    let p := processRequest st k r
    p.1 :: runRequests k p.2 rs

/-- Closed form for a run of the limiter from a starting count `c`: each
request passes through untouched while the incremented count stays within the
budget, and hits the 429 handler afterwards.  Used to state what `runRequests`
computes. -/
def limitedFrom (c : Nat) : List GwResponse → List GwResponse
  | [] => []
  | r :: rs =>
    (if c + 1 ≤ gatewayMax then r else rateLimitHandler) :: limitedFrom (c + 1) rs

/-- The gateway's process environment: each variable may be absent. -/
structure GwEnv where
  port : Option Nat
  redisUrl : Option Str
  identityServiceUrl : Option Str
  postServiceUrl : Option Str
  mediaServiceUrl : Option Str
  jwtSecret : Option Str
  deriving DecidableEq, Repr

/-- The configuration the gateway actually runs with after startup. -/
structure GwConfig where
  port : Nat
  redisUrl : Option Str
  identityServiceUrl : Option Str
  postServiceUrl : Option Str
  mediaServiceUrl : Option Str
  jwtSecret : Option Str
  deriving DecidableEq, Repr

/-- Startup of src/api-gateway/src/server.js: `PORT = process.env.PORT || 3000`
supplies a default, the Redis client and the three proxies are constructed with
whatever value (possibly undefined) the environment holds, and no environment
variable is validated, so startup always succeeds. -/
def gatewayStartup (env : GwEnv) : Except Str GwConfig :=
  .ok { port := env.port.getD 3000, redisUrl := env.redisUrl,
        identityServiceUrl := env.identityServiceUrl,
        postServiceUrl := env.postServiceUrl,
        mediaServiceUrl := env.mediaServiceUrl, jwtSecret := env.jwtSecret }

/-- The media-service `proxyReqOptDecorator` of src/api-gateway/src/server.js:
injects `x-user-id`, then sets `Content-Type: application/json` unless
`srcReq.headers["content-Type"]` starts with `multipart/form-data` (note the
mixed-case key the source uses for the lookup). -/
def mediaProxyReqOptDecorator (srcHeaders outHeaders : List (Str × Str))
    (userId : Str) : List (Str × Str) :=
  let h1 := hset outHeaders (str "x-user-id") userId
  match hget srcHeaders (str "content-Type") with
  | some v =>
    if List.isPrefixOf (str "multipart/form-data") v then h1
    else hset h1 (str "Content-Type") (str "application/json")
  | none => hset h1 (str "Content-Type") (str "application/json")

/-- Modelled from the spec: Node's legacy `url.parse(u).path` on a relative
request URL returns the path together with the query string, stopping at a
`#` fragment. -/
def urlParsePath (u : Str) : Str := u.takeWhile (fun c => ¬ c = '#')

/-- The post-service `proxyReqPathResolver` of src/api-gateway/src/server.js:
`"/api/posts" + url.parse(req.url).path`, where `req.url` is the request URL
with the matched mount prefix already stripped by Express. -/
def proxyReqPathResolverPosts (reqUrl : Str) : Str :=
  str "/api/posts" ++ urlParsePath reqUrl

/-- Modelled from the spec: Express strips the matched mount path from
`req.url` before running the mounted handlers, substituting `/` when nothing
remains. -/
def mountStrip (pre url : Str) : Str :=
  let r := url.drop pre.length
  if r = [] then str "/" else r

/-- An abstract view of what a token string encodes, for the verification
model: whether its signature matches the server's secret, whether its expiry
is in the past, and its payload. -/
structure Token where
  sigValid : Bool
  expired : Bool
  payload : Claims
  deriving DecidableEq, Repr

/-- Modelled from the spec: `jsonwebtoken`'s verification as reflected in the
spec's error taxonomy — a signature mismatch is `CredentialInvalid`
(`JsonWebTokenError`), while `CredentialExpired` (`TokenExpiredError`) applies
to a token that was valid but whose expiry has passed, so the signature is
checked before expiry. -/
def jwtVerify (t : Token) : JwtResult :=
  if ¬ t.sigValid then .err .jsonWebTokenError
  else if t.expired then .err .tokenExpiredError
  else .ok t.payload

/-- The verification oracle induced by an assignment of token strings to
abstract tokens. -/
def jwtVerifySpec (tokenEnv : Str → Token) : Str → JwtResult :=
  fun s => jwtVerify (tokenEnv s)

end Gateway

namespace Gateway

theorem splitOnChar_ne_nil (c : Char) (t : Str) : splitOnChar c t ≠ [] := by
  induction t with
  | nil => simp [splitOnChar]
  | cons x xs ih =>
    simp only [splitOnChar]
    rcases h : splitOnChar c xs with _ | ⟨r, rs⟩
    · simp
    · by_cases hx : x = c <;> simp [hx]

theorem splitOnChar_sep_cons (c : Char) (t : Str) :
    splitOnChar c (c :: t) = [] :: splitOnChar c t := by
  rcases h : splitOnChar c t with _ | ⟨r, rs⟩
  · exact absurd h (splitOnChar_ne_nil c t)
  · simp only [splitOnChar]
    rw [h]
    simp

theorem splitOnChar_nonsep_cons {c x : Char} (hx : ¬ x = c) {t r : Str}
    {rs : List Str} (h : splitOnChar c t = r :: rs) :
    splitOnChar c (x :: t) = (x :: r) :: rs := by
  simp only [splitOnChar]
  rw [h]
  simp [hx]

theorem splitOnChar_append_nosep {c : Char} {pre : Str} (hp : c ∉ pre) :
    ∀ {rest r : Str} {rs : List Str}, splitOnChar c rest = r :: rs →
      splitOnChar c (pre ++ rest) = (pre ++ r) :: rs := by
  induction pre with
  | nil => intro rest r rs h; simpa using h
  | cons x xs ih =>
    intro rest r rs h
    have hx : ¬ x = c := fun e => hp (by simp [e])
    have hxs : c ∉ xs := fun m => hp (List.mem_cons_of_mem _ m)
    have h2 := ih hxs h
    rw [List.cons_append]
    exact splitOnChar_nonsep_cons hx h2

theorem splitOnChar_nosep {c : Char} {t : Str} (h : c ∉ t) :
    splitOnChar c t = [t] := by
  induction t with
  | nil => rfl
  | cons x xs ih =>
    have hx : ¬ x = c := fun e => h (by simp [e])
    have hxs : c ∉ xs := fun m => h (List.mem_cons_of_mem _ m)
    simp only [splitOnChar, ih hxs]
    simp [hx]

theorem splitOnChar_head_mem {c : Char} :
    ∀ {t r : Str} {rs : List Str}, splitOnChar c t = r :: rs →
      ∀ x ∈ r, x ∈ t := by
  intro t
  induction t with
  | nil =>
    intro r rs h
    simp only [splitOnChar, List.cons.injEq] at h
    intro x hx
    rw [← h.1] at hx
    simp at hx
  | cons y ys ih =>
    intro r rs h
    simp only [splitOnChar] at h
    rcases hy : splitOnChar c ys with _ | ⟨r', rs'⟩
    · exact absurd hy (splitOnChar_ne_nil _ _)
    · rw [hy] at h
      by_cases hc : y = c
      · subst hc
        have h' : (if y = y then [] :: r' :: rs' else (y :: r') :: rs')
            = r :: rs := h
        rw [if_pos rfl] at h'
        injection h' with h1 h2
        intro x hx
        rw [← h1] at hx
        simp at hx
      · have h' : (if y = c then [] :: r' :: rs' else (y :: r') :: rs')
            = r :: rs := h
        rw [if_neg hc] at h'
        injection h' with h1 h2
        intro x hx
        rw [← h1] at hx
        rcases List.mem_cons.mp hx with e | m
        · simp [e]
        · exact List.mem_cons_of_mem _ (ih hy x m)

theorem jsTrim_eq_nil_of_ws {s : Str} (h : ∀ x ∈ s, x.isWhitespace) :
    jsTrim s = [] := by
  unfold jsTrim
  have h1 : s.dropWhile Char.isWhitespace = [] :=
    List.dropWhile_eq_nil_iff.mpr h
  simp [h1]

theorem split_scheme (sch t : Str) (hsch : ' ' ∉ sch) :
    splitOnChar ' ' (sch ++ ' ' :: t) = sch :: splitOnChar ' ' t := by
  rcases hs : splitOnChar ' ' t with _ | ⟨r, rs⟩
  · exact absurd hs (splitOnChar_ne_nil _ _)
  · have hsep : splitOnChar ' ' (' ' :: t) = [] :: r :: rs := by
      rw [splitOnChar_sep_cons, hs]
    have := splitOnChar_append_nosep hsch hsep
    simpa [hs] using this

theorem validateToken_wellformed (secret : Option Str)
    (verify : Str → JwtResult) (req : GwRequest) (t : Str)
    (hauth : authHeaderOf req = some (str "Bearer " ++ t))
    (hsp : ' ' ∉ t) (hblank : jsTrim t ≠ []) :
    validateToken secret verify req = verifyPhase secret verify t := by
  have hpre : List.isPrefixOf (str "Bearer ") (str "Bearer " ++ t) = true :=
    List.isPrefixOf_iff_prefix.mpr ⟨t, rfl⟩
  have hsplit : splitOnChar ' ' (str "Bearer " ++ t) = [str "Bearer", t] := by
    have : str "Bearer " ++ t = str "Bearer" ++ ' ' :: t := rfl
    rw [this, split_scheme _ _ (by decide), splitOnChar_nosep hsp]
  have hne : ¬ (str "Bearer " ++ t = []) := by simp [str]
  have hcond : ¬ (t = [] ∨ jsTrim t = []) := by
    rintro (e | e)
    · exact hblank (by simp [e, jsTrim])
    · exact hblank e
  simp [validateToken, hauth, hne, hpre, hsplit, hcond]

theorem bearer_scheme_lower {h : Str}
    (hp : List.isPrefixOf (str "Bearer ") h = true) :
    (h.takeWhile (fun c => ¬ c = ' ')).map Char.toLower = str "bearer" := by
  obtain ⟨t, ht⟩ := List.isPrefixOf_iff_prefix.mp hp
  rw [← ht]
  rfl

theorem lower_bearer_scheme_lower {h : Str}
    (hp : List.isPrefixOf (str "bearer ") h = true) :
    (h.takeWhile (fun c => ¬ c = ' ')).map Char.toLower = str "bearer" := by
  obtain ⟨t, ht⟩ := List.isPrefixOf_iff_prefix.mp hp
  rw [← ht]
  rfl

theorem not_bearer_prefixes {h : Str}
    (hs : (h.takeWhile (fun c => ¬ c = ' ')).map Char.toLower ≠ str "bearer") :
    List.isPrefixOf (str "Bearer ") h = false
      ∧ List.isPrefixOf (str "bearer ") h = false := by
  constructor
  · cases hB : List.isPrefixOf (str "Bearer ") h
    · rfl
    · exact absurd (bearer_scheme_lower hB) hs
  · cases hb : List.isPrefixOf (str "bearer ") h
    · rfl
    · exact absurd (lower_bearer_scheme_lower hb) hs

theorem validateToken_bad_scheme (secret : Option Str)
    (verify : Str → JwtResult) (req : GwRequest) (h : Str)
    (hauth : authHeaderOf req = some h)
    (hs : (h.takeWhile (fun c => ¬ c = ' ')).map Char.toLower ≠ str "bearer") :
    validateToken secret verify req = .respond 401 false
      (if h = [] then str "Authentication required - No token provided"
       else str "Authentication required - Invalid format. Use: Bearer <token>") := by
  obtain ⟨hB, hb⟩ := not_bearer_prefixes hs
  by_cases hne : h = []
  · simp [validateToken, hauth, hne]
  · simp [validateToken, hauth, hne, hB, hb]

theorem validateToken_blank_token (secret : Option Str)
    (verify : Str → JwtResult) (req : GwRequest) (sch t : Str)
    (hauth : authHeaderOf req = some (sch ++ ' ' :: t))
    (hsch : sch = str "Bearer" ∨ sch = str "bearer")
    (hws : ∀ x ∈ t, x.isWhitespace) :
    validateToken secret verify req
      = .respond 401 false (str "Authentication required - Empty token") := by
  have hnosp : ' ' ∉ sch := by rcases hsch with e | e <;> subst e <;> decide
  rcases hr : splitOnChar ' ' t with _ | ⟨r, rs⟩
  · exact absurd hr (splitOnChar_ne_nil _ _)
  have hsplit : splitOnChar ' ' (sch ++ ' ' :: t) = sch :: r :: rs := by
    rw [split_scheme sch t hnosp, hr]
  have hrws : ∀ x ∈ r, x.isWhitespace :=
    fun x hx => hws x (splitOnChar_head_mem hr x hx)
  have hrtrim : jsTrim r = [] := jsTrim_eq_nil_of_ws hrws
  have hne : ¬ (sch ++ ' ' :: t = []) := by
    rcases hsch with e | e <;> subst e <;> simp [str]
  have hfmt : str "Bearer " <+: sch ++ ' ' :: t ∨ str "bearer " <+: sch ++ ' ' :: t := by
    rcases hsch with e | e <;> subst e
    · exact Or.inl ⟨t, rfl⟩
    · exact Or.inr ⟨t, rfl⟩
  rcases hfmt with hp | hp <;> simp [validateToken, hauth, hne, hp, hsplit, hrtrim]

theorem getCount_setCount (st : LimiterState) (k : Str) (v : Nat) :
    getCount (setCount st k v) k = v := by
  simp [getCount, setCount, List.find?]

theorem runRequests_eq_limitedFrom (k : Str) (rs : List GwResponse) :
    ∀ st, runRequests k st rs = limitedFrom (getCount st k) rs := by
  induction rs with
  | nil => intro st; rfl
  | cons r rs ih =>
    intro st
    simp only [runRequests, processRequest, admitReq, limitedFrom]
    rw [ih, getCount_setCount]
    congr 1
    by_cases h : getCount st k + 1 ≤ gatewayMax <;> simp [h]

theorem limitedFrom_get (c : Nat) (rs : List GwResponse) (i : Nat) :
    (limitedFrom c rs).get? i = (rs.get? i).map
      (fun r => if c + i + 1 ≤ gatewayMax then r else rateLimitHandler) := by
  induction rs generalizing c i with
  | nil => simp [limitedFrom]
  | cons r rs ih =>
    cases i with
    | zero => simp [limitedFrom]
    | succ n =>
      have e : c + 1 + n + 1 = c + (n + 1) + 1 := by omega
      simp only [limitedFrom, List.get?_cons_succ, ih, e]

/-- C1 counterexample: with the identity proxy's downstream unreachable
(`connect ECONNREFUSED`), the gateway responds 500 — not 502 — and the
envelope carries the raw error message, contrary to the claim. -/
theorem downstream_failure_status_counterexample :
    gatewayDispatch none (fun _ => .err .otherError) ⟨[]⟩
        (str "/v1/auth/login") (str "POST")
        (.failed (str "connect ECONNREFUSED 127.0.0.1:3001"))
      = { status := 500, success := some false,
          message := some (str "Internal Server Error"),
          error := some (str "connect ECONNREFUSED 127.0.0.1:3001") }
    ∧ (500 : Nat) ≠ 502 := by
  decide

/-- C1 amended: a transport-level failure talking to the downstream target is
caught per-request (the error handler is a total function of the error, so the
pipeline neither crashes nor leaves the request unanswered) and rendered as
status 500 — not 502 — with the envelope
`{success:false, message:"Internal Server Error", error:<raw error message>}`,
which does include the raw downstream error detail. -/
theorem downstream_failure_rendered_500_with_error_detail
    (secret : Option Str) (verify : Str → JwtResult) (req : GwRequest)
    (rest method e : Str) :
    gatewayDispatch secret verify req (str "/v1/auth" ++ rest) method (.failed e)
      = { status := 500, success := some false,
          message := some (str "Internal Server Error"), error := some e } := by
  have hp : List.isPrefixOf (str "/v1/auth") (str "/v1/auth" ++ rest) = true :=
    List.isPrefixOf_iff_prefix.mpr ⟨rest, rfl⟩
  have hm : matchRoute (str "/v1/auth" ++ rest) = some (str "/v1/auth", false) := by
    simp [matchRoute, gatewayRoutes, List.find?, hp]
  simp [gatewayDispatch, hm, renderProxyOutcome, proxyErrorHandler]

/-- C2: the media proxy's multipart detection reads the mixed-case key
`content-Type`, which a Node request never carries (Node lowercases all
inbound header names), so on a genuine multipart upload — lowercase
`content-type: multipart/form-data; boundary=X` — the lookup misses and the
decorator overwrites the outbound `Content-Type` with `application/json`
instead of preserving the multipart boundary verbatim. -/
theorem multipart_content_type_overwritten_bug :
    hget [(str "content-type", str "multipart/form-data; boundary=X")]
        (str "content-Type") = none
    ∧ hget (mediaProxyReqOptDecorator
          [(str "content-type", str "multipart/form-data; boundary=X")]
          [] (str "u1")) (str "Content-Type")
        = some (str "application/json") := by
  decide

/-- C7 counterexample: with every configuration value absent from the
environment, the gateway still starts, defaulting its port to 3000, instead of
refusing to start. -/
theorem startup_succeeds_with_empty_env_counterexample :
    gatewayStartup ⟨none, none, none, none, none, none⟩
      = .ok ⟨3000, none, none, none, none, none⟩ := rfl

/-- C7 amended: the gateway performs no startup validation at all — startup
always succeeds, defaulting the listening port to 3000 when `PORT` is absent
and passing the service URLs, the store URL and the signing secret through
unchecked (possibly absent), so missing values surface only while serving
traffic. -/
theorem startup_never_validates_config (env : GwEnv) :
    gatewayStartup env = .ok ⟨env.port.getD 3000, env.redisUrl,
      env.identityServiceUrl, env.postServiceUrl, env.mediaServiceUrl,
      env.jwtSecret⟩ := rfl

/-- C8: a request whose path matches no mounted route produces a 404 JSON
envelope `{success:false, message, path, method}` echoing the original path
and method, and in particular never a 500. -/
theorem unmatched_path_404_envelope (secret : Option Str)
    (verify : Str → JwtResult) (req : GwRequest) (path method : Str)
    (downstream : ProxyOutcome) (hmatch : matchRoute path = none) :
    gatewayDispatch secret verify req path method downstream
      = { status := 404, success := some false,
          message := some (str "Not Found"),
          path := some path, method := some method }
    ∧ (gatewayDispatch secret verify req path method downstream).status ≠ 500 := by
  have h1 : gatewayDispatch secret verify req path method downstream
      = errHandler path method := by
    simp [gatewayDispatch, hmatch]
  refine ⟨by rw [h1]; rfl, by rw [h1]; simp [errHandler]⟩

/-- C8 witness: the unmatched path `/nope` yields the 404 envelope. -/
theorem unmatched_path_404_envelope_witness :
    matchRoute (str "/nope") = none
    ∧ (gatewayDispatch none (fun _ => .err .otherError) ⟨[]⟩ (str "/nope")
          (str "GET") (.relayed 200 (str "ok"))
        = { status := 404, success := some false,
            message := some (str "Not Found"),
            path := some (str "/nope"), method := some (str "GET") }
      ∧ (gatewayDispatch none (fun _ => .err .otherError) ⟨[]⟩ (str "/nope")
            (str "GET") (.relayed 200 (str "ok"))).status ≠ 500) :=
  ⟨by decide,
    unmatched_path_404_envelope none (fun _ => .err .otherError) ⟨[]⟩
      (str "/nope") (str "GET") (.relayed 200 (str "ok")) (by decide)⟩

/-- C3 counterexample: a token whose expiry is in the past but whose signature
is invalid gets 403, not 401 — signature is checked before expiry, so expiry
does not yield 401 "regardless of the validity of its other fields". -/
theorem expired_invalid_signature_403_counterexample :
    (gatewayDispatch (some (str "s"))
        (jwtVerifySpec (fun _ => ⟨false, true, ⟨str "u"⟩⟩))
        ⟨[(str "authorization", str "Bearer abc")]⟩
        (str "/v1/posts/1") (str "POST") (.relayed 201 (str "created"))).status
      = 403
    ∧ (403 : Nat) ≠ 401
    ∧ (⟨false, true, ⟨str "u"⟩⟩ : Token).expired = true := by
  decide

/-- C3 amended: for a well-formed bearer token on an auth-required route,
verification checks the signature before expiry — if the signature is valid
and the expiry is in the past the response is exactly 401 with the expiry
message, and if the signature is invalid the response is exactly 403 (even
when the expiry is also past). -/
theorem token_expiry_and_signature_statuses (secret : Str)
    (tokenEnv : Str → Token) (req : GwRequest) (t : Str)
    (hauth : authHeaderOf req = some (str "Bearer " ++ t))
    (hsp : ' ' ∉ t) (hblank : jsTrim t ≠ []) :
    ((tokenEnv t).sigValid = true → (tokenEnv t).expired = true →
      validateToken (some secret) (jwtVerifySpec tokenEnv) req
        = .respond 401 false (str "Token expired - Please login again"))
    ∧ ((tokenEnv t).sigValid = false →
      validateToken (some secret) (jwtVerifySpec tokenEnv) req
        = .respond 403 false (str "Invalid token - Authentication failed")) := by
  have hwf := validateToken_wellformed (some secret) (jwtVerifySpec tokenEnv)
    req t hauth hsp hblank
  constructor
  · intro hsig hexp
    rw [hwf]
    simp [verifyPhase, jwtVerifySpec, jwtVerify, hsig, hexp]
  · intro hsig
    rw [hwf]
    simp [verifyPhase, jwtVerifySpec, jwtVerify, hsig]

/-- C3 witness: a concrete expired, correctly-signed token on `/v1/posts`
gets the 401 expiry response. -/
theorem token_expiry_and_signature_statuses_witness :
    authHeaderOf ⟨[(str "authorization", str "Bearer abc")]⟩
        = some (str "Bearer " ++ str "abc")
    ∧ ' ' ∉ str "abc"
    ∧ jsTrim (str "abc") ≠ []
    ∧ (((fun _ : Str => (⟨true, true, ⟨str "u"⟩⟩ : Token)) (str "abc")).sigValid = true →
        ((fun _ : Str => (⟨true, true, ⟨str "u"⟩⟩ : Token)) (str "abc")).expired = true →
        validateToken (some (str "s"))
            (jwtVerifySpec (fun _ => ⟨true, true, ⟨str "u"⟩⟩))
            ⟨[(str "authorization", str "Bearer abc")]⟩
          = .respond 401 false (str "Token expired - Please login again"))
      ∧ (((fun _ : Str => (⟨true, true, ⟨str "u"⟩⟩ : Token)) (str "abc")).sigValid = false →
        validateToken (some (str "s"))
            (jwtVerifySpec (fun _ => ⟨true, true, ⟨str "u"⟩⟩))
            ⟨[(str "authorization", str "Bearer abc")]⟩
          = .respond 403 false (str "Invalid token - Authentication failed")) :=
  ⟨by decide, by decide, by decide,
    token_expiry_and_signature_statuses (str "s")
      (fun _ => ⟨true, true, ⟨str "u"⟩⟩)
      ⟨[(str "authorization", str "Bearer abc")]⟩ (str "abc")
      (by decide) (by decide) (by decide)⟩

/-- C10: when `JWT_SECRET` is unset, an auth-required route answers 500
"Server configuration error" for a well-formed bearer token; the response is
the same under any verification oracle (so no verification is attempted), and
the gateway still starts with the secret absent from the environment. -/
theorem missing_secret_500_before_verification
    (verify verify' : Str → JwtResult) (req : GwRequest) (t : Str) (env : GwEnv)
    (hauth : authHeaderOf req = some (str "Bearer " ++ t))
    (hsp : ' ' ∉ t) (hblank : jsTrim t ≠ [])
    (hsecret : env.jwtSecret = none) :
    validateToken none verify req
      = .respond 500 false (str "Server configuration error")
    ∧ validateToken none verify req = validateToken none verify' req
    ∧ ∃ cfg, gatewayStartup env = .ok cfg ∧ cfg.jwtSecret = none := by
  have h1 := validateToken_wellformed none verify req t hauth hsp hblank
  have h2 := validateToken_wellformed none verify' req t hauth hsp hblank
  have e1 : validateToken none verify req
      = .respond 500 false (str "Server configuration error") := by
    rw [h1]; simp [verifyPhase]
  have e2 : validateToken none verify' req
      = .respond 500 false (str "Server configuration error") := by
    rw [h2]; simp [verifyPhase]
  exact ⟨e1, e1.trans e2.symm, ⟨_, rfl, hsecret⟩⟩

/-- C10 witness: concrete request and empty environment. -/
theorem missing_secret_500_before_verification_witness :
    authHeaderOf ⟨[(str "authorization", str "Bearer abc")]⟩
        = some (str "Bearer " ++ str "abc")
    ∧ ' ' ∉ str "abc"
    ∧ jsTrim (str "abc") ≠ []
    ∧ GwEnv.jwtSecret ⟨none, none, none, none, none, none⟩ = none
    ∧ (validateToken none (fun _ => .ok ⟨str "u"⟩)
          ⟨[(str "authorization", str "Bearer abc")]⟩
        = .respond 500 false (str "Server configuration error")
      ∧ validateToken none (fun _ => .ok ⟨str "u"⟩)
          ⟨[(str "authorization", str "Bearer abc")]⟩
        = validateToken none (fun _ => .err .otherError)
          ⟨[(str "authorization", str "Bearer abc")]⟩
      ∧ ∃ cfg, gatewayStartup ⟨none, none, none, none, none, none⟩ = .ok cfg
          ∧ cfg.jwtSecret = none) :=
  ⟨by decide, by decide, by decide, by decide,
    missing_secret_500_before_verification (fun _ => .ok ⟨str "u"⟩)
      (fun _ => .err .otherError)
      ⟨[(str "authorization", str "Bearer abc")]⟩ (str "abc")
      ⟨none, none, none, none, none, none⟩
      (by decide) (by decide) (by decide) (by decide)⟩

/-- C4: a request whose `Authorization` header is absent, whose scheme (the
word before the first space, compared case-insensitively) is not `Bearer`, or
whose token after the scheme is empty (all-whitespace) is rejected with status
401 and `success=false`; the outcome is identical under any signing secret and
any verification oracle, so the rejection happens before any cryptographic
work. -/
theorem missing_or_malformed_auth_rejected_401 (secret secret' : Option Str)
    (verify verify' : Str → JwtResult) (req : GwRequest)
    (hmal : authHeaderOf req = none
      ∨ (∃ h, authHeaderOf req = some h
          ∧ (h.takeWhile (fun c => ¬ c = ' ')).map Char.toLower ≠ str "bearer")
      ∨ (∃ sch t, authHeaderOf req = some (sch ++ ' ' :: t)
          ∧ (sch = str "Bearer" ∨ sch = str "bearer")
          ∧ ∀ x ∈ t, x.isWhitespace)) :
    ∃ m, validateToken secret verify req = .respond 401 false m
      ∧ validateToken secret verify req = validateToken secret' verify' req := by
  rcases hmal with hnone | ⟨h, hauth, hs⟩ | ⟨sch, t, hauth, hsch, hws⟩
  · have e1 : validateToken secret verify req
        = .respond 401 false (str "Authentication required - No token provided") := by
      simp [validateToken, hnone]
    have e2 : validateToken secret' verify' req
        = .respond 401 false (str "Authentication required - No token provided") := by
      simp [validateToken, hnone]
    exact ⟨_, e1, e1.trans e2.symm⟩
  · have e1 := validateToken_bad_scheme secret verify req h hauth hs
    have e2 := validateToken_bad_scheme secret' verify' req h hauth hs
    exact ⟨_, e1, e1.trans e2.symm⟩
  · have e1 := validateToken_blank_token secret verify req sch t hauth hsch hws
    have e2 := validateToken_blank_token secret' verify' req sch t hauth hsch hws
    exact ⟨_, e1, e1.trans e2.symm⟩

/-- C4 witness: a request with no `Authorization` header at all. -/
theorem missing_or_malformed_auth_rejected_401_witness :
    (authHeaderOf ⟨[]⟩ = none
      ∨ (∃ h, authHeaderOf ⟨[]⟩ = some h
          ∧ (h.takeWhile (fun c => ¬ c = ' ')).map Char.toLower ≠ str "bearer")
      ∨ (∃ sch t, authHeaderOf ⟨[]⟩ = some (sch ++ ' ' :: t)
          ∧ (sch = str "Bearer" ∨ sch = str "bearer")
          ∧ ∀ x ∈ t, x.isWhitespace))
    ∧ ∃ m, validateToken (some (str "s")) (fun _ => .ok ⟨str "u"⟩) ⟨[]⟩
          = .respond 401 false m
        ∧ validateToken (some (str "s")) (fun _ => .ok ⟨str "u"⟩) ⟨[]⟩
          = validateToken none (fun _ => .err .otherError) ⟨[]⟩ :=
  ⟨Or.inl (by decide),
    missing_or_malformed_auth_rejected_401 (some (str "s")) none
      (fun _ => .ok ⟨str "u"⟩) (fun _ => .err .otherError) ⟨[]⟩
      (Or.inl (by decide))⟩

/-- C9: every execution of `validateToken` either produces exactly one error
response with `success=false` and status 401, 403 or 500, or attaches exactly
the payload decoded by the verifier for the extracted token and proceeds —
it never proceeds without an attached identity. -/
theorem validateToken_single_outcome_invariant (secret : Option Str)
    (verify : Str → JwtResult) (req : GwRequest) :
    (∃ s m, validateToken secret verify req = .respond s false m
        ∧ (s = 401 ∨ s = 403 ∨ s = 500))
    ∨ (∃ h t u, authHeaderOf req = some h
        ∧ (splitOnChar ' ' h).get? 1 = some t
        ∧ verify t = .ok u
        ∧ validateToken secret verify req = .proceed u) := by
  rcases hA : authHeaderOf req with _ | h
  · left
    exact ⟨401, str "Authentication required - No token provided",
      by simp [validateToken, hA], Or.inl rfl⟩
  · by_cases hne : h = []
    · left
      exact ⟨401, str "Authentication required - No token provided",
        by simp [validateToken, hA, hne], Or.inl rfl⟩
    · by_cases hfmt : ¬ (List.isPrefixOf (str "Bearer ") h = true)
          ∧ ¬ (List.isPrefixOf (str "bearer ") h = true)
      · left
        refine ⟨401,
          str "Authentication required - Invalid format. Use: Bearer <token>",
          ?_, Or.inl rfl⟩
        simp only [validateToken, hA, if_neg hne, if_pos hfmt]
      · rcases hT : (splitOnChar ' ' h).get? 1 with _ | t
        · left
          refine ⟨401, str "Authentication required - Empty token",
            ?_, Or.inl rfl⟩
          simp only [validateToken, hA, if_neg hne, if_neg hfmt, hT]
        · by_cases hblank : t = [] ∨ jsTrim t = []
          · left
            refine ⟨401, str "Authentication required - Empty token",
              ?_, Or.inl rfl⟩
            simp only [validateToken, hA, if_neg hne, if_neg hfmt, hT,
              if_pos hblank]
          · have hval : validateToken secret verify req
                = verifyPhase secret verify t := by
              simp only [validateToken, hA, if_neg hne, if_neg hfmt, hT,
                if_neg hblank]
            by_cases hsec : secret = none
            · left
              refine ⟨500, str "Server configuration error",
                ?_, Or.inr (Or.inr rfl)⟩
              rw [hval]
              simp [verifyPhase, hsec]
            · rcases hv : verify t with e | u
              · rcases e with _ | _ | _
                · left
                  refine ⟨401, str "Token expired - Please login again",
                    ?_, Or.inl rfl⟩
                  rw [hval]
                  simp [verifyPhase, hsec, hv]
                · left
                  refine ⟨403, str "Invalid token - Authentication failed",
                    ?_, Or.inr (Or.inl rfl)⟩
                  rw [hval]
                  simp [verifyPhase, hsec, hv]
                · left
                  refine ⟨403, str "Token verification failed",
                    ?_, Or.inr (Or.inl rfl)⟩
                  rw [hval]
                  simp [verifyPhase, hsec, hv]
              · right
                refine ⟨h, t, u, rfl, hT, hv, ?_⟩
                rw [hval]
                simp [verifyPhase, hsec, hv]

/-- C5: the gateway limiter uses a fixed window of 15 minutes with a budget of
100 requests per client key; running budget+1 requests from one key within a
window, the first 100 pass through on their own merits (the limiter leaves
their responses untouched) and the 101st gets the 429 `success=false`
handler. -/
theorem fixed_window_budget_enforced (k : Str) (rs : List GwResponse)
    (hlen : rs.length = gatewayMax + 1) :
    gatewayWindowMs = 15 * 60 * 1000
    ∧ gatewayMax = 100
    ∧ (∀ i, i < gatewayMax → (runRequests k [] rs).get? i = rs.get? i)
    ∧ (runRequests k [] rs).get? gatewayMax = some rateLimitHandler
    ∧ rateLimitHandler.status = 429
    ∧ rateLimitHandler.success = some false := by
  have hrun : runRequests k [] rs = limitedFrom 0 rs := by
    have h := runRequests_eq_limitedFrom k rs []
    simpa [getCount] using h
  refine ⟨rfl, rfl, ?_, ?_, rfl, rfl⟩
  · intro i hi
    rw [hrun, limitedFrom_get]
    have hcond : i + 1 ≤ gatewayMax := by omega
    simp [hcond]
  · rw [hrun, limitedFrom_get]
    obtain ⟨x, hx⟩ : ∃ x, rs.get? gatewayMax = some x :=
      ⟨_, List.get?_eq_get (by rw [hlen]; omega)⟩
    have hcond : ¬ (0 + gatewayMax + 1 ≤ gatewayMax) := by omega
    rw [hx]
    simp [hcond]

/-- C5 witness: 101 identical 200-responses from one client IP. -/
theorem fixed_window_budget_enforced_witness :
    (List.replicate (gatewayMax + 1) ({ status := 200 } : GwResponse)).length
        = gatewayMax + 1
    ∧ (gatewayWindowMs = 15 * 60 * 1000
      ∧ gatewayMax = 100
      ∧ (∀ i, i < gatewayMax →
          (runRequests (str "ip") []
              (List.replicate (gatewayMax + 1) ({ status := 200 } : GwResponse))).get? i
            = (List.replicate (gatewayMax + 1) ({ status := 200 } : GwResponse)).get? i)
      ∧ (runRequests (str "ip") []
            (List.replicate (gatewayMax + 1) ({ status := 200 } : GwResponse))).get? gatewayMax
          = some rateLimitHandler
      ∧ rateLimitHandler.status = 429
      ∧ rateLimitHandler.success = some false) :=
  ⟨by simp,
    fixed_window_budget_enforced (str "ip")
      (List.replicate (gatewayMax + 1) ({ status := 200 } : GwResponse))
      (by simp)⟩

/-- C6: for a request path made of the external prefix `/v1/posts` followed by
trailing segments (and an optional query string) containing no `#`, the
forwarded path is exactly `/api/posts` followed by the identical suffix,
preserved verbatim. -/
theorem path_rewrite_preserves_suffix (rest : Str)
    (hhead : rest.head? = some '/') (hfrag : '#' ∉ rest) :
    proxyReqPathResolverPosts
        (mountStrip (str "/v1/posts") (str "/v1/posts" ++ rest))
      = str "/api/posts" ++ rest := by
  have hdrop : (str "/v1/posts" ++ rest).drop (str "/v1/posts").length = rest :=
    List.drop_left _ _
  have hne : rest ≠ [] := by
    intro e
    rw [e] at hhead
    simp at hhead
  have hms : mountStrip (str "/v1/posts") (str "/v1/posts" ++ rest) = rest := by
    simp [mountStrip, hdrop, hne]
  have hta : rest.takeWhile (fun c => ¬ c = '#') = rest :=
    List.takeWhile_eq_self_iff.mpr (by
      intro a ha
      simp only [decide_eq_true_eq]
      exact fun e => hfrag (e ▸ ha))
  rw [hms]
  unfold proxyReqPathResolverPosts urlParsePath
  rw [hta]

/-- C6 witness: `/v1/posts/42?x=1` forwards to `/api/posts/42?x=1`. -/
theorem path_rewrite_preserves_suffix_witness :
    (str "/42?x=1").head? = some '/'
    ∧ '#' ∉ str "/42?x=1"
    ∧ proxyReqPathResolverPosts
        (mountStrip (str "/v1/posts") (str "/v1/posts" ++ str "/42?x=1"))
      = str "/api/posts" ++ str "/42?x=1" :=
  ⟨by decide, by decide,
    path_rewrite_preserves_suffix (str "/42?x=1") (by decide) (by decide)⟩

example :
    validateToken (some (str "s")) (fun _ => .ok ⟨str "u1"⟩)
      ⟨[(str "authorization", str "Bearer abc")]⟩ = .proceed ⟨str "u1"⟩ := by
  decide

example :
    validateToken (some (str "s")) (fun _ => .ok ⟨str "u1"⟩)
      ⟨[]⟩ =
      .respond 401 false (str "Authentication required - No token provided") := by
  decide

example :
    validateToken (some (str "s")) (fun _ => .ok ⟨str "u1"⟩)
      ⟨[(str "authorization", str "Token abc")]⟩ =
      .respond 401 false
        (str "Authentication required - Invalid format. Use: Bearer <token>") := by
  decide

example :
    validateToken (some (str "s")) (fun _ => .ok ⟨str "u1"⟩)
      ⟨[(str "authorization", str "Bearer  ")]⟩ =
      .respond 401 false (str "Authentication required - Empty token") := by
  decide

example :
    validateToken none (fun _ => .ok ⟨str "u1"⟩)
      ⟨[(str "authorization", str "Bearer abc")]⟩ =
      .respond 500 false (str "Server configuration error") := by
  decide

end Gateway
